import Mathlib

/-!
Verification of `gio/gwin32inputstream.c` (GWin32InputStream): a Windows
file-handle backed implementation of the GInputStream read/close interface.

The embedding models:
  * the private state `struct _GWin32InputStreamPrivate` (a `HANDLE` pointer
    and a `gboolean close_handle`, the latter a C `int`);
  * the operating-system surface (`ReadFile`, `CloseHandle`, plus the
    GLib helpers `g_win32_error_message` and `g_io_error_from_win32_error`,
    which live elsewhere in the repository) as an abstract environment
    `Win32`, so theorems quantify over every possible OS behaviour;
  * each operation as a pure function that also returns the ordered list of
    OS calls it issued, so call-count properties are statable.

Handles are modelled as `Nat` pointer values with `0` playing `NULL`;
`gboolean`/`gssize` values are `Int`; `gsize`/`DWORD` values are `Nat`.
-/

/-- `G_MAXINT`: maximum value of a 32-bit signed `int` (from glib). -/
def G_MAXINT : Nat := 2147483647

/-- Windows error code `ERROR_HANDLE_EOF` (from `windows.h`). -/
def ERROR_HANDLE_EOF : Nat := 38

/-- Windows error code `ERROR_BROKEN_PIPE` (from `windows.h`). -/
def ERROR_BROKEN_PIPE : Nat := 109

/-- The `G_IO_ERROR` error domain (`g_io_error_quark ()`); quarks are opaque
integers, the concrete value is irrelevant to every theorem below. -/
def G_IO_ERROR : Nat := 1

/-- `G_IO_ERROR_CANCELLED` from `gioenums.h` (not under `src/`): the
error-kind code reported for an operation aborted by cancellation. -/
def G_IO_ERROR_CANCELLED : Nat := 19

/-- A set `GError`: domain quark, kind code within the domain, message. -/
structure GError where
  domain : Nat
  code : Nat
  message : String
  deriving DecidableEq, Repr

/-- Result of one `ReadFile` OS call: success with a byte count written to
`*lpNumberOfBytesRead`, or failure leaving an error code for `GetLastError`. -/
inductive ReadFileResult where
  | ok (nread : Nat)
  | fail (errsv : Nat)
  deriving DecidableEq, Repr

/-- Result of one `CloseHandle` OS call: success, or failure leaving an
error code for `GetLastError`. -/
inductive CloseHandleResult where
  | ok
  | fail (errsv : Nat)
  deriving DecidableEq, Repr

/-- One OS call issued by the stream, recorded with its arguments. -/
inductive OSCall where
  | readFile (handle : Nat) (nbytes : Nat)
  | closeHandle (handle : Nat)
  deriving DecidableEq, Repr

/-- The environment the stream runs against.  `ReadFile`/`CloseHandle` are
the Win32 primitives (abstract behaviour per handle and length);
`g_win32_error_message` (gwin32.c) renders a platform error description and
`g_io_error_from_win32_error` (gioerror.c) is the OS-error-code to
generic-I/O-error-kind table — both repository code outside `src/`, kept
abstract so theorems hold for the real mapping whatever it is. -/
structure Win32 where
  ReadFile : Nat → Nat → ReadFileResult
  CloseHandle : Nat → CloseHandleResult
  g_win32_error_message : Nat → String
  g_io_error_from_win32_error : Nat → Nat

/-- `struct _GWin32InputStreamPrivate`: the wrapped `HANDLE` and the
`gboolean close_handle` flag (a C `int`, so any `Int` value can sit in it). -/
structure GWin32InputStreamPrivate where
  handle : Nat
  close_handle : Int
  deriving DecidableEq, Repr

/-- `g_win32_input_stream_init`: `priv->handle = NULL; priv->close_handle = TRUE;`. -/
def g_win32_input_stream_init : GWin32InputStreamPrivate :=
  { handle := 0, close_handle := 1 }

/-- Modelled from the spec: `g_cancellable_set_error_if_cancelled` lives in
`gio/gcancellable.c`, which is not under `src/`.  Per the spec, if the token
is already in a cancelled state the call sets a `Cancelled` error and
reports true; otherwise it reports false and sets no error.  A `NULL`
token (`none`) is never cancelled.  We return the error it would set. -/
def g_cancellable_set_error_if_cancelled (cancellable : Option Bool) : Option GError :=
  match cancellable with
  | none => none
  | some cancelled =>
      if cancelled then
        some { domain := G_IO_ERROR, code := G_IO_ERROR_CANCELLED,
               message := "Operation was cancelled" }
      else
        none

/-- `g_win32_input_stream_new (handle, close_handle)`:
`g_return_val_if_fail (handle != NULL, NULL)` then `g_object_new` with the
two properties, which `g_win32_input_stream_set_property` stores into the
private struct.  The precondition failure (returning `NULL` with a critical
warning) is `none`.  The `gboolean` argument travels through the GObject
boolean property machinery (outside `src/`), which keeps boolean property
values canonical, so it is taken as a `Bool` and stored as C `TRUE`/`FALSE`. -/
def g_win32_input_stream_new (handle : Nat) (close_handle : Bool) :
    Option GWin32InputStreamPrivate :=
  if handle = 0 then
    none
  else
    some { handle := handle, close_handle := if close_handle then 1 else 0 }

/-- `g_win32_input_stream_set_close_handle`: normalizes the incoming
`gboolean` (`close_handle = close_handle != FALSE`), and only when the
normalized value differs from the stored one, stores it and calls
`g_object_notify (stream, "close-handle")`.  Returns the new private state
and the list of property-change notifications emitted. -/
def g_win32_input_stream_set_close_handle (priv : GWin32InputStreamPrivate)
    (close_handle : Int) : GWin32InputStreamPrivate × List String :=
  let ch : Int := if close_handle ≠ 0 then 1 else 0
  if priv.close_handle ≠ ch then
    ({ priv with close_handle := ch }, ["close-handle"])
  else
    (priv, [])

/-- `g_win32_input_stream_get_close_handle`: returns the stored `gboolean`. -/
def g_win32_input_stream_get_close_handle (priv : GWin32InputStreamPrivate) : Int :=
  priv.close_handle

/-- `g_win32_input_stream_get_handle`: returns the stored handle as-is. -/
def g_win32_input_stream_get_handle (priv : GWin32InputStreamPrivate) : Nat :=
  priv.handle

/-- Outcome of `g_win32_input_stream_read`: the `gssize` return value, the
`GError` stored through the out-parameter (if any), and the OS calls issued. -/
structure ReadOutcome where
  ret : Int
  error : Option GError
  calls : List OSCall
  deriving DecidableEq, Repr

/-- `g_win32_input_stream_read (stream, buffer, count, cancellable, error)`:
1. `if (g_cancellable_set_error_if_cancelled (cancellable, error)) return -1;`
2. clamp: `if (count > G_MAXINT) nbytes = G_MAXINT; else nbytes = count;`
3. `res = ReadFile (handle, buffer, nbytes, &nread, NULL);`
4. on failure, `GetLastError` codes `ERROR_HANDLE_EOF` and
   `ERROR_BROKEN_PIPE` return `0` with no error set; any other code sets a
   `G_IO_ERROR` domain error with kind `g_io_error_from_win32_error (errsv)`
   and message `"Error reading from handle: %s"` of
   `g_win32_error_message (errsv)`, and returns `-1`;
5. on success returns `nread`. -/
def g_win32_input_stream_read (os : Win32) (priv : GWin32InputStreamPrivate)
    (count : Nat) (cancellable : Option Bool) : ReadOutcome :=
  match g_cancellable_set_error_if_cancelled cancellable with
  | some e => { ret := -1, error := some e, calls := [] }
  | none =>
    let nbytes : Nat := if count > G_MAXINT then G_MAXINT else count
    match os.ReadFile priv.handle nbytes with
    | ReadFileResult.ok nread =>
        { ret := (nread : Int), error := none,
          calls := [OSCall.readFile priv.handle nbytes] }
    | ReadFileResult.fail errsv =>
        if errsv = ERROR_HANDLE_EOF ∨ errsv = ERROR_BROKEN_PIPE then
          { ret := 0, error := none,
            calls := [OSCall.readFile priv.handle nbytes] }
        else
          { ret := -1,
            error := some { domain := G_IO_ERROR,
                            code := os.g_io_error_from_win32_error errsv,
                            message := "Error reading from handle: "
                                         ++ os.g_win32_error_message errsv },
            calls := [OSCall.readFile priv.handle nbytes] }

/-- Outcome of `g_win32_input_stream_close`: the private state after the
call (the source never writes to `priv` in `close`, which the definition
makes explicit by threading it through), the `gboolean` return value, the
`GError` stored through the out-parameter (if any), and the OS calls issued. -/
structure CloseOutcome where
  priv : GWin32InputStreamPrivate
  ret : Bool
  error : Option GError
  calls : List OSCall
  deriving DecidableEq, Repr

/-- `g_win32_input_stream_close (stream, cancellable, error)`:
1. `if (!priv->close_handle) return TRUE;` — the cancellable is never used;
2. `res = CloseHandle (priv->handle);`
3. on failure sets a `G_IO_ERROR` domain error with kind
   `g_io_error_from_win32_error (errsv)` and message
   `"Error closing handle: %s"` of `g_win32_error_message (errsv)` and
   returns `FALSE`; on success returns `TRUE`. -/
def g_win32_input_stream_close (os : Win32) (priv : GWin32InputStreamPrivate)
    (cancellable : Option Bool) : CloseOutcome :=
  if priv.close_handle = 0 then
    { priv := priv, ret := true, error := none, calls := [] }
  else
    match os.CloseHandle priv.handle with
    | CloseHandleResult.ok =>
        { priv := priv, ret := true, error := none,
          calls := [OSCall.closeHandle priv.handle] }
    | CloseHandleResult.fail errsv =>
        { priv := priv, ret := false,
          error := some { domain := G_IO_ERROR,
                          code := os.g_io_error_from_win32_error errsv,
                          message := "Error closing handle: "
                                       ++ os.g_win32_error_message errsv },
          calls := [OSCall.closeHandle priv.handle] }

/-- A mock OS whose `ReadFile` always fails with `ERROR_HANDLE_EOF`. -/
def mockOsEof : Win32 :=
  { ReadFile := fun _ _ => ReadFileResult.fail ERROR_HANDLE_EOF,
    CloseHandle := fun _ => CloseHandleResult.ok,
    g_win32_error_message := fun _ => "Reached the end of the file.",
    g_io_error_from_win32_error := fun e => e }

/-- A mock OS whose `ReadFile` always fails with `ERROR_ACCESS_DENIED` (5). -/
def mockOsReadErr : Win32 :=
  { ReadFile := fun _ _ => ReadFileResult.fail 5,
    CloseHandle := fun _ => CloseHandleResult.ok,
    g_win32_error_message := fun _ => "Access is denied.",
    g_io_error_from_win32_error := fun e => e }

/-- A mock OS whose `CloseHandle` always fails with `ERROR_INVALID_HANDLE` (6). -/
def mockOsCloseErr : Win32 :=
  { ReadFile := fun _ _ => ReadFileResult.ok 0,
    CloseHandle := fun _ => CloseHandleResult.fail 6,
    g_win32_error_message := fun _ => "The handle is invalid.",
    g_io_error_from_win32_error := fun e => e }

/-- A mock OS on which every call succeeds; `ReadFile` reads 7 bytes. -/
def mockOsOk : Win32 :=
  { ReadFile := fun _ _ => ReadFileResult.ok 7,
    CloseHandle := fun _ => CloseHandleResult.ok,
    g_win32_error_message := fun _ => "The operation completed successfully.",
    g_io_error_from_win32_error := fun e => e }

/-! ## Theorems -/

/-- The clamp in `g_win32_input_stream_read` equals `min count G_MAXINT`. -/
theorem clamp_eq_min (count : Nat) :
    (if count > G_MAXINT then G_MAXINT else count) = min count G_MAXINT := by
  rcases Nat.lt_or_ge G_MAXINT count with h | h
  · simp [Nat.min_def, h, Nat.not_le.mpr h]
  · simp [Nat.min_def, h, Nat.not_lt.mpr h]

/-- Claim C1: for every call to `read` on an open stream where the OS read
call fails with an end-of-stream (`ERROR_HANDLE_EOF`) or broken-pipe
(`ERROR_BROKEN_PIPE`) condition, `read` returns success with 0 bytes and
does not report an error. -/
theorem read_eof_or_broken_pipe_returns_zero
    (os : Win32) (priv : GWin32InputStreamPrivate) (count : Nat)
    (cancellable : Option Bool) (errsv : Nat)
    (hc : g_cancellable_set_error_if_cancelled cancellable = none)
    (hr : os.ReadFile priv.handle (if count > G_MAXINT then G_MAXINT else count)
            = ReadFileResult.fail errsv)
    (he : errsv = ERROR_HANDLE_EOF ∨ errsv = ERROR_BROKEN_PIPE) :
    (g_win32_input_stream_read os priv count cancellable).ret = 0 ∧
    (g_win32_input_stream_read os priv count cancellable).error = none := by
  rcases he with h | h <;> subst h <;>
    simp [g_win32_input_stream_read, hc, hr]

/-- Witness for C1: a mock OS reporting `ERROR_HANDLE_EOF` on every read. -/
theorem read_eof_or_broken_pipe_returns_zero_witness :
    g_cancellable_set_error_if_cancelled none = none ∧
    mockOsEof.ReadFile 1 (if 4 > G_MAXINT then G_MAXINT else 4)
      = ReadFileResult.fail 38 ∧
    (38 = ERROR_HANDLE_EOF ∨ 38 = ERROR_BROKEN_PIPE) ∧
    ((g_win32_input_stream_read mockOsEof ⟨1, 1⟩ 4 none).ret = 0 ∧
     (g_win32_input_stream_read mockOsEof ⟨1, 1⟩ 4 none).error = none) :=
  ⟨rfl, rfl, Or.inl rfl,
   read_eof_or_broken_pipe_returns_zero mockOsEof ⟨1, 1⟩ 4 none 38 rfl rfl
     (Or.inl rfl)⟩

/-- Claim C2: `read` with an already-cancelled token fails immediately with
a `Cancelled` error (`G_IO_ERROR_CANCELLED` in the `G_IO_ERROR` domain) and
issues zero OS calls — the cancellation check precedes any OS call, for
every OS behaviour, every stream state and every requested length. -/
theorem read_cancelled_no_os_call
    (os : Win32) (priv : GWin32InputStreamPrivate) (count : Nat) :
    g_win32_input_stream_read os priv count (some true) =
      { ret := -1,
        error := some { domain := G_IO_ERROR, code := G_IO_ERROR_CANCELLED,
                        message := "Operation was cancelled" },
        calls := [] } :=
  rfl

/-- Claim C3: when `close_handle` (`owns_handle`) is false, `close` returns
success, issues no OS call, and does not inspect the cancellation token:
the outcome is identical for every pair of token states. -/
theorem close_not_owned_is_noop
    (os : Win32) (priv : GWin32InputStreamPrivate)
    (cancellable cancellable2 : Option Bool)
    (h : priv.close_handle = 0) :
    (g_win32_input_stream_close os priv cancellable).ret = true ∧
    (g_win32_input_stream_close os priv cancellable).error = none ∧
    (g_win32_input_stream_close os priv cancellable).calls = [] ∧
    g_win32_input_stream_close os priv cancellable
      = g_win32_input_stream_close os priv cancellable2 := by
  refine ⟨?_, ?_, ?_, rfl⟩ <;> simp [g_win32_input_stream_close, h]

/-- Witness for C3: a non-owning stream closed under a cancelled token. -/
theorem close_not_owned_is_noop_witness :
    (⟨1, 0⟩ : GWin32InputStreamPrivate).close_handle = 0 ∧
    ((g_win32_input_stream_close mockOsCloseErr ⟨1, 0⟩ (some true)).ret = true ∧
     (g_win32_input_stream_close mockOsCloseErr ⟨1, 0⟩ (some true)).error = none ∧
     (g_win32_input_stream_close mockOsCloseErr ⟨1, 0⟩ (some true)).calls = [] ∧
     g_win32_input_stream_close mockOsCloseErr ⟨1, 0⟩ (some true)
       = g_win32_input_stream_close mockOsCloseErr ⟨1, 0⟩ none) :=
  ⟨rfl, close_not_owned_is_noop mockOsCloseErr ⟨1, 0⟩ (some true) none rfl⟩

/-- Claim C4: when `close_handle` (`owns_handle`) is true at the moment
`close` runs, exactly one `CloseHandle` OS call is issued; on OS success
`close` succeeds, and on OS failure it returns a `G_IO_ERROR` domain error
whose kind is `g_io_error_from_win32_error (errsv)` and whose message
embeds `g_win32_error_message (errsv)`. -/
theorem close_owned_releases_once
    (os : Win32) (priv : GWin32InputStreamPrivate) (cancellable : Option Bool)
    (h : priv.close_handle ≠ 0) :
    (g_win32_input_stream_close os priv cancellable).calls
      = [OSCall.closeHandle priv.handle] ∧
    (os.CloseHandle priv.handle = CloseHandleResult.ok →
      (g_win32_input_stream_close os priv cancellable).ret = true ∧
      (g_win32_input_stream_close os priv cancellable).error = none) ∧
    (∀ errsv, os.CloseHandle priv.handle = CloseHandleResult.fail errsv →
      (g_win32_input_stream_close os priv cancellable).ret = false ∧
      (g_win32_input_stream_close os priv cancellable).error
        = some { domain := G_IO_ERROR,
                 code := os.g_io_error_from_win32_error errsv,
                 message := "Error closing handle: "
                              ++ os.g_win32_error_message errsv }) := by
  cases hcl : os.CloseHandle priv.handle <;>
    simp [g_win32_input_stream_close, h, hcl]

/-- Witness for C4: an owning stream whose `CloseHandle` fails with code 6. -/
theorem close_owned_releases_once_witness :
    (⟨1, 1⟩ : GWin32InputStreamPrivate).close_handle ≠ 0 ∧
    ((g_win32_input_stream_close mockOsCloseErr ⟨1, 1⟩ none).calls
       = [OSCall.closeHandle 1] ∧
     (mockOsCloseErr.CloseHandle 1 = CloseHandleResult.ok →
       (g_win32_input_stream_close mockOsCloseErr ⟨1, 1⟩ none).ret = true ∧
       (g_win32_input_stream_close mockOsCloseErr ⟨1, 1⟩ none).error = none) ∧
     (∀ errsv, mockOsCloseErr.CloseHandle 1 = CloseHandleResult.fail errsv →
       (g_win32_input_stream_close mockOsCloseErr ⟨1, 1⟩ none).ret = false ∧
       (g_win32_input_stream_close mockOsCloseErr ⟨1, 1⟩ none).error
         = some { domain := G_IO_ERROR,
                  code := mockOsCloseErr.g_io_error_from_win32_error errsv,
                  message := "Error closing handle: "
                               ++ mockOsCloseErr.g_win32_error_message errsv })) :=
  ⟨by decide, close_owned_releases_once mockOsCloseErr ⟨1, 1⟩ none (by decide)⟩

/-- Claim C5: the length passed to the single OS read call is
`min count G_MAXINT`; a request above the 32-bit signed maximum is clamped,
and an OS success of `nread` (at most the length passed, per the `ReadFile`
contract) yields a successful read of `nread` bytes, at most the cap —
never an error due to the oversized request. -/
theorem read_clamps_to_maxint
    (os : Win32) (priv : GWin32InputStreamPrivate) (count : Nat)
    (cancellable : Option Bool) (nread : Nat)
    (hc : g_cancellable_set_error_if_cancelled cancellable = none)
    (hr : os.ReadFile priv.handle (min count G_MAXINT) = ReadFileResult.ok nread)
    (hn : nread ≤ min count G_MAXINT) :
    (g_win32_input_stream_read os priv count cancellable).calls
      = [OSCall.readFile priv.handle (min count G_MAXINT)] ∧
    (g_win32_input_stream_read os priv count cancellable).ret = (nread : Int) ∧
    (g_win32_input_stream_read os priv count cancellable).error = none ∧
    nread ≤ G_MAXINT := by
  have hmin := clamp_eq_min count
  refine ⟨?_, ?_, ?_, le_trans hn (Nat.min_le_right _ _)⟩ <;>
    simp [g_win32_input_stream_read, hc, hmin, hr]

/-- Witness for C5: a request of `G_MAXINT + 1` bytes against a mock OS that
reads 7 bytes; the OS call is issued with length `G_MAXINT`. -/
theorem read_clamps_to_maxint_witness :
    g_cancellable_set_error_if_cancelled none = none ∧
    mockOsOk.ReadFile 1 (min 2147483648 G_MAXINT) = ReadFileResult.ok 7 ∧
    7 ≤ min 2147483648 G_MAXINT ∧
    ((g_win32_input_stream_read mockOsOk ⟨1, 1⟩ 2147483648 none).calls
       = [OSCall.readFile 1 (min 2147483648 G_MAXINT)] ∧
     (g_win32_input_stream_read mockOsOk ⟨1, 1⟩ 2147483648 none).ret = (7 : Int) ∧
     (g_win32_input_stream_read mockOsOk ⟨1, 1⟩ 2147483648 none).error = none ∧
     7 ≤ G_MAXINT) :=
  ⟨rfl, rfl, by decide,
   read_clamps_to_maxint mockOsOk ⟨1, 1⟩ 2147483648 none 7 rfl rfl (by decide)⟩

/-- Claim C6: construction with the null handle produces no stream (the
precondition-violation path `g_return_val_if_fail` returns `NULL`); with
any non-null handle it succeeds and stores exactly the supplied handle and
ownership flag, as the accessors observe. -/
theorem new_validates_handle (handle : Nat) (close_handle : Bool) :
    (handle = 0 → g_win32_input_stream_new handle close_handle = none) ∧
    (handle ≠ 0 → ∃ priv,
      g_win32_input_stream_new handle close_handle = some priv ∧
      g_win32_input_stream_get_handle priv = handle ∧
      g_win32_input_stream_get_close_handle priv
        = (if close_handle then 1 else 0)) := by
  constructor
  · intro h
    simp [g_win32_input_stream_new, h]
  · intro h
    refine ⟨{ handle := handle, close_handle := if close_handle then 1 else 0 },
            ?_, rfl, rfl⟩
    simp [g_win32_input_stream_new, h]

/-- Witness for C6: null handle rejected; handle 7 with ownership accepted. -/
theorem new_validates_handle_witness :
    (g_win32_input_stream_new 0 true = none) ∧
    (∃ priv, g_win32_input_stream_new 7 true = some priv ∧
      g_win32_input_stream_get_handle priv = 7 ∧
      g_win32_input_stream_get_close_handle priv = (if true then 1 else 0)) :=
  ⟨(new_validates_handle 0 true).1 rfl,
   (new_validates_handle 7 true).2 (by decide)⟩

/-- Claim C7: an OS read failure with a code other than `ERROR_HANDLE_EOF`
and `ERROR_BROKEN_PIPE` makes `read` fail with a `G_IO_ERROR` domain error
whose kind is `g_io_error_from_win32_error (errsv)` and whose message
embeds the platform description `g_win32_error_message (errsv)`. -/
theorem read_os_error_mapped
    (os : Win32) (priv : GWin32InputStreamPrivate) (count : Nat)
    (cancellable : Option Bool) (errsv : Nat)
    (hc : g_cancellable_set_error_if_cancelled cancellable = none)
    (hr : os.ReadFile priv.handle (if count > G_MAXINT then G_MAXINT else count)
            = ReadFileResult.fail errsv)
    (h1 : errsv ≠ ERROR_HANDLE_EOF) (h2 : errsv ≠ ERROR_BROKEN_PIPE) :
    (g_win32_input_stream_read os priv count cancellable).ret = -1 ∧
    (g_win32_input_stream_read os priv count cancellable).error
      = some { domain := G_IO_ERROR,
               code := os.g_io_error_from_win32_error errsv,
               message := "Error reading from handle: "
                            ++ os.g_win32_error_message errsv } := by
  constructor <;> simp [g_win32_input_stream_read, hc, hr, h1, h2]

/-- Witness for C7: a mock OS failing reads with `ERROR_ACCESS_DENIED` (5). -/
theorem read_os_error_mapped_witness :
    g_cancellable_set_error_if_cancelled none = none ∧
    mockOsReadErr.ReadFile 1 (if 4 > G_MAXINT then G_MAXINT else 4)
      = ReadFileResult.fail 5 ∧
    (5 : Nat) ≠ ERROR_HANDLE_EOF ∧
    (5 : Nat) ≠ ERROR_BROKEN_PIPE ∧
    ((g_win32_input_stream_read mockOsReadErr ⟨1, 1⟩ 4 none).ret = -1 ∧
     (g_win32_input_stream_read mockOsReadErr ⟨1, 1⟩ 4 none).error
       = some { domain := G_IO_ERROR,
                code := mockOsReadErr.g_io_error_from_win32_error 5,
                message := "Error reading from handle: "
                             ++ mockOsReadErr.g_win32_error_message 5 }) :=
  ⟨rfl, rfl, by decide, by decide,
   read_os_error_mapped mockOsReadErr ⟨1, 1⟩ 4 none 5 rfl rfl (by decide)
     (by decide)⟩

/-- Counterexample to claim C8 as stated: on a stream that already owns its
handle (exactly what `g_win32_input_stream_new 1 true` builds, and also the
`init` default), `set_close_handle TRUE` twice emits zero change
notifications in total, not the claimed exactly one — the first call is
already a no-op because the stored value does not change. -/
theorem set_close_handle_true_twice_counterexample :
    g_win32_input_stream_new 1 true
      = some { handle := 1, close_handle := 1 } ∧
    (g_win32_input_stream_set_close_handle { handle := 1, close_handle := 1 } 1).2.length
      + (g_win32_input_stream_set_close_handle
          (g_win32_input_stream_set_close_handle
            { handle := 1, close_handle := 1 } 1).1 1).2.length = 0 ∧
    (g_win32_input_stream_set_close_handle { handle := 1, close_handle := 1 } 1).2.length
      + (g_win32_input_stream_set_close_handle
          (g_win32_input_stream_set_close_handle
            { handle := 1, close_handle := 1 } 1).1 1).2.length ≠ 1 := by
  refine ⟨rfl, rfl, ?_⟩
  decide

/-- Claim C8 (amended): `set_close_handle b` leaves the stored flag equal to
the canonical boolean of `b`, and emits exactly one change notification
when that canonical value differs from the stored one and none when it is
equal; consequently `set_close_handle TRUE` twice emits exactly one
notification in total when the stored flag was not already `TRUE`
beforehand, and zero when it was. -/
theorem set_close_handle_notifies_on_change
    (priv : GWin32InputStreamPrivate) (b : Int) :
    (g_win32_input_stream_set_close_handle priv b).1.close_handle
      = (if b ≠ 0 then 1 else 0) ∧
    (g_win32_input_stream_set_close_handle priv b).2.length
      = (if priv.close_handle = (if b ≠ 0 then 1 else 0) then 0 else 1) ∧
    (g_win32_input_stream_set_close_handle priv 1).2.length
      + (g_win32_input_stream_set_close_handle
          (g_win32_input_stream_set_close_handle priv 1).1 1).2.length
      = (if priv.close_handle = 1 then 0 else 1) := by
  by_cases hb : b = 0 <;>
    by_cases hp : priv.close_handle = (if b ≠ 0 then (1 : Int) else 0) <;>
    by_cases h1 : priv.close_handle = 1 <;>
    simp_all [g_win32_input_stream_set_close_handle]

/-- Claim C9: `set_close_handle` canonicalizes every nonzero `gboolean`
input to exactly `TRUE` before comparing and storing: after any call the
value `get_close_handle` observes is exactly 0 or exactly 1, distinct
nonzero inputs normalize to the same canonical value, and a second call
with a distinct nonzero input emits no second notification. -/
theorem set_close_handle_canonicalizes
    (priv : GWin32InputStreamPrivate) (b b1 b2 : Int) :
    (g_win32_input_stream_get_close_handle
        (g_win32_input_stream_set_close_handle priv b).1 = 0 ∨
     g_win32_input_stream_get_close_handle
        (g_win32_input_stream_set_close_handle priv b).1 = 1) ∧
    (b1 ≠ 0 → b2 ≠ 0 → b1 ≠ b2 →
      ((if b1 ≠ 0 then (1 : Int) else 0) = (if b2 ≠ 0 then (1 : Int) else 0)) ∧
      (g_win32_input_stream_set_close_handle
          (g_win32_input_stream_set_close_handle priv b1).1 b2).2 = []) := by
  constructor
  · by_cases hb : b = 0 <;>
      by_cases hp : priv.close_handle = (if b ≠ 0 then (1 : Int) else 0) <;>
      simp_all [g_win32_input_stream_set_close_handle,
                g_win32_input_stream_get_close_handle]
  · intro h1 h2 _
    refine ⟨by simp [h1, h2], ?_⟩
    by_cases hp : priv.close_handle = 1 <;>
      simp_all [g_win32_input_stream_set_close_handle]

/-- Witness for C9: starting from a non-owning stream, inputs 5, 2 and 7
behave as canonical `TRUE`; the second of two distinct nonzero sets is
silent. -/
theorem set_close_handle_canonicalizes_witness :
    (g_win32_input_stream_get_close_handle
        (g_win32_input_stream_set_close_handle ⟨1, 0⟩ 5).1 = 0 ∨
     g_win32_input_stream_get_close_handle
        (g_win32_input_stream_set_close_handle ⟨1, 0⟩ 5).1 = 1) ∧
    ((2 : Int) ≠ 0 ∧ (7 : Int) ≠ 0 ∧ (2 : Int) ≠ 7) ∧
    ((if (2 : Int) ≠ 0 then (1 : Int) else 0)
       = (if (7 : Int) ≠ 0 then (1 : Int) else 0)) ∧
    (g_win32_input_stream_set_close_handle
        (g_win32_input_stream_set_close_handle ⟨1, 0⟩ 2).1 7).2 = [] :=
  ⟨(set_close_handle_canonicalizes ⟨1, 0⟩ 5 2 7).1,
   ⟨by decide, by decide, by decide⟩,
   ((set_close_handle_canonicalizes ⟨1, 0⟩ 5 2 7).2 (by decide) (by decide)
      (by decide)).1,
   ((set_close_handle_canonicalizes ⟨1, 0⟩ 5 2 7).2 (by decide) (by decide)
      (by decide)).2⟩

/-- Claim C10: `close` never modifies the stream's stored fields — whether
it succeeded, failed, or skipped the release — so `get_handle` still
returns the original handle and `get_close_handle` the original flag; the
handle field is never cleared by `close`. -/
theorem close_preserves_fields
    (os : Win32) (priv : GWin32InputStreamPrivate) (cancellable : Option Bool) :
    (g_win32_input_stream_close os priv cancellable).priv = priv ∧
    g_win32_input_stream_get_handle
        (g_win32_input_stream_close os priv cancellable).priv = priv.handle ∧
    g_win32_input_stream_get_close_handle
        (g_win32_input_stream_close os priv cancellable).priv
      = priv.close_handle := by
  have h : (g_win32_input_stream_close os priv cancellable).priv = priv := by
    unfold g_win32_input_stream_close
    split
    · rfl
    · cases os.CloseHandle priv.handle <;> rfl
  exact ⟨h, by rw [h]; rfl, by rw [h]; rfl⟩
